import Mathlib

/-!
# Verification of the biomes-game client bootstrap / load-progress orchestrator

Shallow embedding of `src/client/game/load_progress.ts`,
`src/client/game/context_managers/auth_manager.ts` and
`src/client/util/auth.ts` (the retrying-fetch layer), together with
theorems settling the specification claims about them.

External collaborator types (`ClientContext`, `RegistryLoader`,
`WebSocketChannelStats`, the browser `Response`) are modelled by small
structures carrying exactly the observations the embedded code reads
from them.
-/

namespace Biomes

/-! ## Connection status and channel stats (`@/shared/zrpc/core`) -/

/-- Transport states of the WebSocket channel, as enumerated by the
`switch` in `progressSummary`. -/
inductive ConnectionStatus
  | disconnected
  | closing
  | connecting
  | waitingOnHeartbeat
  | reconnecting
  | interrupted
  | unhealthy
  | ready
deriving DecidableEq, Repr

/-- The slice of `WebSocketChannelStats` read by the load-progress code:
only its `status` field. -/
structure ChannelStats where
  status : ConnectionStatus
deriving DecidableEq, Repr

/-- Modelled from the spec: `emptyChannelStats()` from `@/shared/zrpc/core`
is not among the provided sources.  It is the stats value of a channel that
does not exist yet; the spec lists `disconnected` among the transport
states, and a non-existent channel is not connected, so its status is
modelled as `disconnected`.  No claim below depends on this choice. -/
def emptyChannelStats : ChannelStats := { status := ConnectionStatus.disconnected }

/-! ## Early context loader (`RegistryLoader<EarlyClientContext>`) -/

/-- The slice of `EarlyClientContext.io` read by `extractLoadProgress`. -/
structure EarlyIo where
  channelStats : ChannelStats
  bootstrapped : Bool
deriving DecidableEq, Repr

/-- The slice of `RegistryLoader<EarlyClientContext>` read by the
load-progress code: its `loaded` flag and its (possibly absent)
`context` with the io observations. -/
structure RegistryLoaderState where
  loaded : Bool
  context : Option EarlyIo
deriving DecidableEq, Repr

/-! ## Client context (`ClientContext`, opaque handle) -/

/-- The observations `extractLoadProgress` makes of a `ClientContext`:
the local player id (0 models a falsy id), whether the player mesh is
cached, whether all player shards are meshed, the entity table record
size, the rendered frame count, and whether accessing the resources
throws (modelling the `try`/`catch` around the extraction). -/
structure ClientContextState where
  localPlayerId : Nat
  playerMeshCached : Bool
  allShardsMeshed : Bool
  recordSize : Nat
  renderedFrames : Nat
  resourcesThrow : Bool
deriving DecidableEq, Repr

/-! ## Load progress snapshot and constants (`load_progress.ts`) -/

/-- The `LoadProgress` snapshot type. -/
structure LoadProgress where
  startedLoading : Bool
  earlyContextLoader : Option RegistryLoaderState
  channelStats : ChannelStats
  bootstrapped : Bool
  entitiesLoaded : Nat
  playerMeshLoaded : Bool
  terrainMeshLoaded : Bool
  sceneRendered : Nat
deriving DecidableEq, Repr

def REQUIRED_FRAMES : Nat := 30

def MAX_LOAD_RETRIES : Nat := 5

def LOAD_RETRY_DELAY_MS : Nat := 2000

def BOOTSTRAP_TIMEOUT_MS : Nat := 60000

/-! ## `extractLoadProgress` -/

/-- The context-dependent part of the snapshot. -/
structure ContextData where
  entitiesLoaded : Nat
  playerMeshLoaded : Bool
  terrainMeshLoaded : Bool
  sceneRendered : Nat
deriving DecidableEq, Repr

/-- The immediately-invoked arrow body inside `extractLoadProgress` that
computes the context data from a non-null `ClientContext`, including its
`catch` branch which forces `playerMeshLoaded`, `terrainMeshLoaded` and
`sceneRendered` to completed values ("Force to true to allow progress"). -/
def extractContextData (c : ClientContextState) : ContextData :=
  if c.resourcesThrow then
    { entitiesLoaded := 0
      playerMeshLoaded := true
      terrainMeshLoaded := true
      sceneRendered := REQUIRED_FRAMES }
  else
    { entitiesLoaded := c.recordSize
      playerMeshLoaded := c.localPlayerId = 0 || c.playerMeshCached
      terrainMeshLoaded := c.localPlayerId = 0 || c.allShardsMeshed
      sceneRendered := c.renderedFrames }

/-- Embeds `extractLoadProgress(earlyContextLoader, context)`. -/
def extractLoadProgress (earlyContextLoader : Option RegistryLoaderState)
    (context : Option ClientContextState) : LoadProgress :=
  let earlyContextData : Option RegistryLoaderState × ChannelStats × Bool :=
    match earlyContextLoader with
    | some l =>
      match l.context with
      | some io => (some l, io.channelStats, io.bootstrapped)
      | none => (earlyContextLoader, emptyChannelStats, false)
    | none => (earlyContextLoader, emptyChannelStats, false)
  let contextData : ContextData :=
    match context with
    | none =>
      { entitiesLoaded := 0
        playerMeshLoaded := false
        terrainMeshLoaded := false
        sceneRendered := 0 }
    | some c => extractContextData c
  { startedLoading := true
    earlyContextLoader := earlyContextData.1
    channelStats := earlyContextData.2.1
    bootstrapped := earlyContextData.2.2
    entitiesLoaded := contextData.entitiesLoaded
    playerMeshLoaded := contextData.playerMeshLoaded
    terrainMeshLoaded := contextData.terrainMeshLoaded
    sceneRendered := contextData.sceneRendered }

/-! ## `LoadProgressSummary` and `progressSummary` -/

inductive LoadProgressSummary
  | no_progress
  | no_early_context_loader
  | early_context
  | connecting
  | waiting_for_heartbeat
  | problems_connecting
  | bootstrapping
  | game_entities
  | player_mesh
  | terrain_meshing
  | scene_rendered
  | ready
  | broken
deriving DecidableEq, Repr, Fintype

/-- Embeds `progressSummary(loadProgress)`: the sequence of early returns and
the `switch` over `channelStats.status`, in source order. -/
def progressSummary (loadProgress : LoadProgress) : LoadProgressSummary :=
  if !loadProgress.startedLoading then
    LoadProgressSummary.no_progress
  else
    match loadProgress.earlyContextLoader with
    | none => LoadProgressSummary.no_early_context_loader
    | some loader =>
      if !loader.loaded then
        LoadProgressSummary.early_context
      else
        match loadProgress.channelStats.status with
        | ConnectionStatus.disconnected => LoadProgressSummary.broken
        | ConnectionStatus.closing => LoadProgressSummary.broken
        | ConnectionStatus.connecting => LoadProgressSummary.connecting
        | ConnectionStatus.waitingOnHeartbeat => LoadProgressSummary.waiting_for_heartbeat
        | ConnectionStatus.reconnecting => LoadProgressSummary.problems_connecting
        | ConnectionStatus.interrupted => LoadProgressSummary.problems_connecting
        | ConnectionStatus.unhealthy => LoadProgressSummary.problems_connecting
        | ConnectionStatus.ready =>
          if !loadProgress.bootstrapped then
            LoadProgressSummary.bootstrapping
          else if loadProgress.entitiesLoaded = 0 then
            LoadProgressSummary.game_entities
          else if !loadProgress.playerMeshLoaded then
            LoadProgressSummary.player_mesh
          else if !loadProgress.terrainMeshLoaded then
            LoadProgressSummary.terrain_meshing
          else if loadProgress.sceneRendered < REQUIRED_FRAMES then
            LoadProgressSummary.scene_rendered
          else
            LoadProgressSummary.ready

/-- Written from the spec's words (section 4.3): the 13-rule
first-match decision list for `classify(snapshot) -> Stage`, to be
compared with `progressSummary` as embedded from the source. -/
def classifySpec (lp : LoadProgress) : LoadProgressSummary :=
  if lp.startedLoading = false then
    LoadProgressSummary.no_progress
  else if lp.earlyContextLoader = none then
    LoadProgressSummary.no_early_context_loader
  else if ¬ (∃ l, lp.earlyContextLoader = some l ∧ l.loaded = true) then
    LoadProgressSummary.early_context
  else if lp.channelStats.status = ConnectionStatus.disconnected ∨
      lp.channelStats.status = ConnectionStatus.closing then
    LoadProgressSummary.broken
  else if lp.channelStats.status = ConnectionStatus.connecting then
    LoadProgressSummary.connecting
  else if lp.channelStats.status = ConnectionStatus.waitingOnHeartbeat then
    LoadProgressSummary.waiting_for_heartbeat
  else if lp.channelStats.status = ConnectionStatus.reconnecting ∨
      lp.channelStats.status = ConnectionStatus.interrupted ∨
      lp.channelStats.status = ConnectionStatus.unhealthy then
    LoadProgressSummary.problems_connecting
  else if lp.bootstrapped = false then
    LoadProgressSummary.bootstrapping
  else if lp.entitiesLoaded = 0 then
    LoadProgressSummary.game_entities
  else if lp.playerMeshLoaded = false then
    LoadProgressSummary.player_mesh
  else if lp.terrainMeshLoaded = false then
    LoadProgressSummary.terrain_meshing
  else if lp.sceneRendered < REQUIRED_FRAMES then
    LoadProgressSummary.scene_rendered
  else
    LoadProgressSummary.ready

/-! ## `descriptionForSummary` and `progressForSummary` -/

/-- Embeds `descriptionForSummary(summary)`. -/
def descriptionForSummary (summary : LoadProgressSummary) : String :=
  match summary with
  | LoadProgressSummary.no_progress => "Pulling the big lever..."
  | LoadProgressSummary.no_early_context_loader => "Tuning..."
  | LoadProgressSummary.early_context => "Scanning frequencies..."
  | LoadProgressSummary.connecting => "Starting transmission..."
  | LoadProgressSummary.waiting_for_heartbeat => "Checking pulse..."
  | LoadProgressSummary.problems_connecting =>
    "Problems while connecting to server, retrying..."
  | LoadProgressSummary.broken =>
    "Can\x27t connect to server right now. Retrying..."
  | LoadProgressSummary.bootstrapping => "Pulling up bootstraps..."
  | LoadProgressSummary.game_entities => "Learning about the world..."
  | LoadProgressSummary.player_mesh => "Acquiring some style..."
  | LoadProgressSummary.terrain_meshing => "Getting grounded..."
  | LoadProgressSummary.scene_rendered => "Lets see what\x27s out there..."
  | LoadProgressSummary.ready => "Let\x27s go!"

/-- Embeds `progressForSummary(summary)`. -/
def progressForSummary (summary : LoadProgressSummary) : Nat :=
  match summary with
  | LoadProgressSummary.no_progress => 0
  | LoadProgressSummary.no_early_context_loader => 1
  | LoadProgressSummary.early_context => 2
  | LoadProgressSummary.connecting => 3
  | LoadProgressSummary.waiting_for_heartbeat => 4
  | LoadProgressSummary.problems_connecting => 5
  | LoadProgressSummary.broken => 6
  | LoadProgressSummary.bootstrapping => 7
  | LoadProgressSummary.game_entities => 8
  | LoadProgressSummary.player_mesh => 9
  | LoadProgressSummary.terrain_meshing => 10
  | LoadProgressSummary.scene_rendered => 11
  | LoadProgressSummary.ready => 12

/-- The 13 variants of `LoadProgressSummary` in declaration order. -/
def allSummaries : List LoadProgressSummary :=
  [LoadProgressSummary.no_progress,
   LoadProgressSummary.no_early_context_loader,
   LoadProgressSummary.early_context,
   LoadProgressSummary.connecting,
   LoadProgressSummary.waiting_for_heartbeat,
   LoadProgressSummary.problems_connecting,
   LoadProgressSummary.broken,
   LoadProgressSummary.bootstrapping,
   LoadProgressSummary.game_entities,
   LoadProgressSummary.player_mesh,
   LoadProgressSummary.terrain_meshing,
   LoadProgressSummary.scene_rendered,
   LoadProgressSummary.ready]

/-! ## Stall detection inside the polling loop (`ClientLoader.load`) -/

/-- Models `JSON.stringify(summary)`: the summary string wrapped in double
quotes, as the polling loop serializes it for stall comparison. -/
def summaryJson (summary : LoadProgressSummary) : String :=
  match summary with
  | LoadProgressSummary.no_progress => "\x22no_progress\x22"
  | LoadProgressSummary.no_early_context_loader => "\x22no_early_context_loader\x22"
  | LoadProgressSummary.early_context => "\x22early_context\x22"
  | LoadProgressSummary.connecting => "\x22connecting\x22"
  | LoadProgressSummary.waiting_for_heartbeat => "\x22waiting_for_heartbeat\x22"
  | LoadProgressSummary.problems_connecting => "\x22problems_connecting\x22"
  | LoadProgressSummary.bootstrapping => "\x22bootstrapping\x22"
  | LoadProgressSummary.game_entities => "\x22game_entities\x22"
  | LoadProgressSummary.player_mesh => "\x22player_mesh\x22"
  | LoadProgressSummary.terrain_meshing => "\x22terrain_meshing\x22"
  | LoadProgressSummary.scene_rendered => "\x22scene_rendered\x22"
  | LoadProgressSummary.ready => "\x22ready\x22"
  | LoadProgressSummary.broken => "\x22broken\x22"

/-- The two loop locals driving stall detection:
`progressStuckCounter` and `lastProgress`. -/
structure StallTracker where
  progressStuckCounter : Nat
  lastProgress : String
deriving DecidableEq, Repr

/-- One tick of the stall bookkeeping in `ClientLoader.load`'s polling
loop: if the serialized summary equals `lastProgress` the counter is
incremented and the tick reports whether the counter exceeded 30;
otherwise the counter resets to 0 and `lastProgress` is replaced. -/
def stallTick (t : StallTracker) (currentProgress : String) : StallTracker × Bool :=
  if currentProgress = t.lastProgress then
    ({ t with progressStuckCounter := t.progressStuckCounter + 1 },
     decide (t.progressStuckCounter + 1 > 30))
  else
    ({ progressStuckCounter := 0, lastProgress := currentProgress }, false)

/-- Whether a tick force-resolves: the stuck counter exceeded 30 on this
tick and `this.context` is non-null (in which case the loop resolves
with that context and breaks). -/
def stallTickResolves (t : StallTracker) (currentProgress : String)
    (context : Option ClientContextState) : Option ClientContextState :=
  if (stallTick t currentProgress).2 then
    match context with
    | some c => some c
    | none => none
  else none

/-- Runs `n` consecutive ticks all serializing to the same `currentProgress`,
starting from tracker state `t`. -/
def stallRun (currentProgress : String) (t : StallTracker) : Nat → StallTracker
  | 0 => t
  | n + 1 => (stallTick (stallRun currentProgress t n) currentProgress).1

/-! ## Failure handling in the polling loop and in `load` -/

/-- What a failure site in `ClientLoader.load` does with the tick. -/
inductive TickFailureAction
  | retryAfterDelay (newRetries : Nat)
  | resolveWith (ctx : ClientContextState)
  | fail (e : String)
deriving DecidableEq, Repr

/-- The `summary === "broken"` branch of the polling loop: retry with an
incremented counter while retries remain; on exhaustion resolve with the
existing context when present, otherwise throw. -/
def brokenTickPolicy (loadRetries : Nat) (context : Option ClientContextState) :
    TickFailureAction :=
  if loadRetries < MAX_LOAD_RETRIES then
    TickFailureAction.retryAfterDelay (loadRetries + 1)
  else
    match context with
    | some ctx => TickFailureAction.resolveWith ctx
    | none => TickFailureAction.fail "Connection broken after maximum retries"

/-- The `catch (e)` handler of the polling loop body: identical retry
policy; on exhaustion resolve with the existing context when present,
otherwise reject with the caught error. -/
def caughtErrorTickPolicy (loadRetries : Nat) (context : Option ClientContextState)
    (e : String) : TickFailureAction :=
  if loadRetries < MAX_LOAD_RETRIES then
    TickFailureAction.retryAfterDelay (loadRetries + 1)
  else
    match context with
    | some ctx => TickFailureAction.resolveWith ctx
    | none => TickFailureAction.fail e

/-- The exhausted-retries branch of the `interruptLoad` handler:
resolve with the existing context when present, otherwise reject with
the interrupting error. -/
def interruptExhausted (context : Option ClientContextState) (e : String) :
    Except String ClientContextState :=
  match context with
  | some ctx => Except.ok ctx
  | none => Except.error e

/-- The outer `catch (error)` of `ClientLoader.load`: retry while
retries remain; otherwise return the existing context only when the
elapsed time since `bootstrapStartTime` exceeds `BOOTSTRAP_TIMEOUT_MS`
and a context exists; otherwise rethrow the error. -/
def loadCatchHandler (loadRetries : Nat) (context : Option ClientContextState)
    (elapsedMs : Nat) (e : String) : TickFailureAction :=
  if loadRetries < MAX_LOAD_RETRIES then
    TickFailureAction.retryAfterDelay (loadRetries + 1)
  else if elapsedMs > BOOTSTRAP_TIMEOUT_MS then
    match context with
    | some ctx => TickFailureAction.resolveWith ctx
    | none => TickFailureAction.fail e
  else
    TickFailureAction.fail e

/-! ## `ClientLoader.stop` -/

/-- The instance state `stop()` reads and writes, with counters for the
observable side effects: `interruptLoadSet` / `contextCleanupSet` model
whether the respective callback fields are assigned, and the two
counters record how often each callback has been invoked.
`controller.abortAndWait()` (external `BackgroundTaskController`) is an
idempotent cancellation with no observable effect modelled here. -/
structure LoaderStopState where
  interruptLoadSet : Bool
  contextCleanupSet : Bool
  interruptCalls : Nat
  cleanupCalls : Nat
deriving DecidableEq, Repr

/-- One call to `ClientLoader.stop()`: invoke `interruptLoad` if set and
clear the field, then invoke `contextCleanup` if set (the field is not
cleared). -/
def stopOnce (s : LoaderStopState) : LoaderStopState :=
  let s1 :=
    if s.interruptLoadSet then
      { s with interruptCalls := s.interruptCalls + 1, interruptLoadSet := false }
    else s
  if s1.contextCleanupSet then
    { s1 with cleanupCalls := s1.cleanupCalls + 1 }
  else s1

/-! ## Auth session acquisition (`auth_manager.ts`) -/

/-- Modelled from the spec: `INVALID_BIOMES_ID` from `@/shared/ids` is
not among the provided sources; it is the sentinel "invalid id", the
falsy id value, modelled as 0 (the code tests it with `!userId`). -/
def INVALID_BIOMES_ID : Nat := 0

/-- Embeds `BiomesUser`: id, creation time, and the role set
(roles modelled as a list of role names). -/
structure BiomesUser where
  id : Nat
  createMs : Option Nat
  specialRoles : List String
deriving DecidableEq, Repr

/-- The `{ user: { id, createMs } }` part of `SelfProfileResponse`. -/
structure ProfileUser where
  id : Nat
  createMs : Option Nat
deriving DecidableEq, Repr

/-- Embeds `SelfProfileResponse` as consumed by `fetchUserProfile`. -/
structure SelfProfileResponse where
  user : ProfileUser
  roles : List String
deriving DecidableEq, Repr

structure AuthManager where
  currentUser : BiomesUser
deriving DecidableEq, Repr

/-- Embeds `AuthManager.fetchUserProfile(userId)` in the HEAD resolution of the
merge conflict present in the source: return an anonymous user for the
sentinel id; otherwise take the outcome of the backoff-wrapped profile
fetch (`profileFetch` abstracts `asyncBackoffOnAllErrors` over
`jsonFetch("/api/social/self_profile")`), then
`ok(userId === profile.user.id, "User ID mismatch")` — the assertion
throws on mismatch — and build the `BiomesUser` from the profile. -/
def AuthManager.fetchUserProfile (userId : Nat)
    (profileFetch : Except String SelfProfileResponse) :
    Except String BiomesUser :=
  if userId = 0 then
    Except.ok { id := INVALID_BIOMES_ID, createMs := none, specialRoles := [] }
  else
    match profileFetch with
    | Except.error e => Except.error e
    | Except.ok profile =>
      if userId = profile.user.id then
        Except.ok
          { id := profile.user.id
            createMs := profile.user.createMs
            specialRoles := profile.roles }
      else
        Except.error "User ID mismatch"

/-- Embeds `AuthManager.bootstrap(userId)`: wrap the fetched user. -/
def AuthManager.bootstrap (userId : Nat)
    (profileFetch : Except String SelfProfileResponse) :
    Except String AuthManager :=
  match AuthManager.fetchUserProfile userId profileFetch with
  | Except.ok u => Except.ok { currentUser := u }
  | Except.error e => Except.error e

/-! ## Retrying fetch layer (`fetch_helpers` part of `auth.ts`) -/

/-- The slice of the browser `Response` the fetch helpers read: status,
status text, and the JSON body (`none` models `response.json()`
rejecting). -/
structure FetchResponse where
  status : Nat
  statusText : String
  jsonBody : Option String
deriving DecidableEq, Repr

/-- Models `Response.ok` per the web platform: status in the 200-299 range. -/
def FetchResponse.ok (r : FetchResponse) : Bool :=
  decide (200 ≤ r.status) && decide (r.status ≤ 299)

/-- Outcome of one underlying `fetch` call: the promise either rejects
(network failure or timeout-abort) or resolves with a response of any
status. -/
inductive FetchOutcome
  | rejected (e : String)
  | resolved (r : FetchResponse)
deriving DecidableEq, Repr

def DEFAULT_RETRIES : Nat := 3

def DEFAULT_RETRY_DELAY_MS : Nat := 1000

/-- Embeds `attemptFetch(attempt)` inside `wrappedFetch`: perform the fetch
(`fetchAt attempt` gives the outcome of the attempt-th underlying
call); a resolved response of any status is returned as-is; a rejection
is retried while `attempt < retries`, and the last error is thrown on
exhaustion. -/
def attemptFetch (fetchAt : Nat → FetchOutcome) (retries : Nat) (attempt : Nat) :
    Except String FetchResponse :=
  match fetchAt attempt with
  | FetchOutcome.resolved r => Except.ok r
  | FetchOutcome.rejected e =>
    if h : attempt < retries then
      attemptFetch fetchAt retries (attempt + 1)
    else
      Except.error e
termination_by retries - attempt
decreasing_by
  exact Nat.sub_succ_lt_self retries attempt h

/-- Embeds `wrappedFetch(input, init)`: run `attemptFetch` from attempt 0. -/
def wrappedFetch (fetchAt : Nat → FetchOutcome) (retries : Nat) :
    Except String FetchResponse :=
  attemptFetch fetchAt retries 0

/-- Embeds `maybeHandleErrorResponse(input, response)`: `ok` responses pass;
status 502 throws the distinguished service-unavailable error
immediately; otherwise the error body is parsed (`parseApiError`
abstracts `throwPotentialAPIError` and the message/code extraction,
which always ends in a throw for a non-ok, non-502 response). -/
def maybeHandleErrorResponse (input : String) (r : FetchResponse)
    (parseApiError : String → String) : Except String Unit :=
  if r.ok then
    Except.ok ()
  else if r.status = 502 then
    Except.error (input ++ ": 502: Unavailable")
  else
    match r.jsonBody with
    | none =>
      Except.error (input ++ ": Bad JSON errorCode=" ++ toString r.status ++ " "
        ++ r.statusText)
    | some body => Except.error (parseApiError body)

/-- Embeds `jsonFetch(input, init)`: `wrappedFetch`, then
`maybeHandleErrorResponse`, then parse the body. -/
def jsonFetch (input : String) (fetchAt : Nat → FetchOutcome) (retries : Nat)
    (parseApiError : String → String) : Except String String :=
  match wrappedFetch fetchAt retries with
  | Except.error e => Except.error e
  | Except.ok r =>
    match maybeHandleErrorResponse input r parseApiError with
    | Except.error e => Except.error e
    | Except.ok _ =>
      match r.jsonBody with
      | some body => Except.ok body
      | none => Except.error (input ++ ": Bad JSON")

/-! ## Theorems -/

/-- C1: for every `LoadProgress` snapshot, `progressSummary` returns the
stage determined by the spec's 13-rule first-match order — not started
gives `no_progress`; no early context loader gives
`no_early_context_loader`; unloaded early context gives `early_context`;
disconnected/closing gives `broken`; connecting gives `connecting`;
waitingOnHeartbeat gives `waiting_for_heartbeat`;
reconnecting/interrupted/unhealthy gives `problems_connecting`; then
(status ready) the bootstrapped, entity, mesh and frame rules in order,
otherwise `ready`. -/
theorem progressSummary_matches_spec_order (lp : LoadProgress) :
    progressSummary lp = classifySpec lp := by
  obtain ⟨started, loader, ⟨status⟩, boot, ents, pm, tm, sr⟩ := lp
  cases started
  · simp [progressSummary, classifySpec]
  · rcases loader with _ | ⟨loaded, ioctx⟩
    · simp [progressSummary, classifySpec]
    · cases loaded
      · simp [progressSummary, classifySpec]
      · cases status <;> cases boot <;> cases pm <;> cases tm <;>
          simp [progressSummary, classifySpec]

/-- C4: the description and progress-rank mappings are total over the
13-variant summary enum, every description is non-empty, and mapping the
13 variants in declaration order yields exactly the ranks 0 through 12
(hence the ranks are pairwise distinct and their set is exactly 0..12). -/
theorem summary_tables_total :
    (∀ s : LoadProgressSummary, 0 < (descriptionForSummary s).length) ∧
    (∀ s : LoadProgressSummary, s ∈ allSummaries) ∧
    allSummaries.map progressForSummary =
      [0, 1, 2, 3, 4, 5, 6, 7, 8, 9, 10, 11, 12] ∧
    (allSummaries.map progressForSummary).Nodup := by
  refine ⟨?_, ?_, ?_, ?_⟩ <;> decide

/-- C8 counterexample: a snapshot with `connectionStatus` disconnected
but `startedLoading` false classifies as `no_progress`, not `broken`,
so disconnected does not give `broken` regardless of all other fields. -/
theorem disconnected_without_started_not_broken :
    progressSummary
        { startedLoading := false
          earlyContextLoader := none
          channelStats := { status := ConnectionStatus.disconnected }
          bootstrapped := false
          entitiesLoaded := 0
          playerMeshLoaded := false
          terrainMeshLoaded := false
          sceneRendered := 0 } = LoadProgressSummary.no_progress ∧
    LoadProgressSummary.no_progress ≠ LoadProgressSummary.broken := by
  decide

/-- C8 (amended): for every snapshot whose `startedLoading` is true and
whose early context loader is present and loaded, `connectionStatus`
disconnected gives `broken` regardless of the remaining fields
(bootstrapped, entitiesLoaded, playerMeshLoaded, terrainMeshLoaded,
sceneRendered). -/
theorem disconnected_gives_broken (lp : LoadProgress)
    (l : RegistryLoaderState)
    (hstart : lp.startedLoading = true)
    (hl : lp.earlyContextLoader = some l)
    (hloaded : l.loaded = true)
    (hdis : lp.channelStats.status = ConnectionStatus.disconnected) :
    progressSummary lp = LoadProgressSummary.broken := by
  obtain ⟨started, loader, ⟨status⟩, boot, ents, pm, tm, sr⟩ := lp
  simp only at hstart hl hdis
  subst hstart hl hdis
  simp [progressSummary, hloaded]

/-- Witness for C8's amended theorem at a concrete snapshot. -/
theorem disconnected_gives_broken_witness :
    progressSummary
        { startedLoading := true
          earlyContextLoader := some { loaded := true, context := none }
          channelStats := { status := ConnectionStatus.disconnected }
          bootstrapped := true
          entitiesLoaded := 7
          playerMeshLoaded := true
          terrainMeshLoaded := true
          sceneRendered := 99 } = LoadProgressSummary.broken :=
  disconnected_gives_broken _ { loaded := true, context := none } rfl rfl rfl rfl

/-- A snapshot that has started loading never classifies as
`no_progress`. -/
theorem progressSummary_ne_no_progress (lp : LoadProgress)
    (h : lp.startedLoading = true) :
    progressSummary lp ≠ LoadProgressSummary.no_progress := by
  obtain ⟨started, loader, ⟨status⟩, boot, ents, pm, tm, sr⟩ := lp
  simp only at h
  subst h
  rcases loader with _ | ⟨loaded, ioctx⟩
  · simp [progressSummary]
  · cases loaded <;> cases status <;> cases boot <;> cases pm <;> cases tm <;>
      simp [progressSummary] <;> split_ifs <;> simp

/-- C10: for every pair of inputs (any early context loader value,
including absent, and any context value, including null), the snapshot
returned by `extractLoadProgress` has `startedLoading` true, and
`progressSummary` of such a snapshot is never `no_progress`. -/
theorem extractLoadProgress_always_started (l : Option RegistryLoaderState)
    (c : Option ClientContextState) :
    (extractLoadProgress l c).startedLoading = true ∧
    progressSummary (extractLoadProgress l c) ≠ LoadProgressSummary.no_progress := by
  refine ⟨?_, ?_⟩
  · rcases l with _ | ⟨loaded, ioctx⟩ <;> rcases c with _ | c <;> rfl
  · exact progressSummary_ne_no_progress _
      (by rcases l with _ | ⟨loaded, ioctx⟩ <;> rcases c with _ | c <;> rfl)

/-- C2: evaluating the code at the failing input — for the non-sentinel
userId 1, when the profile fetch succeeds but returns a profile whose id
is 2, `AuthManager.bootstrap` throws the "User ID mismatch" assertion
instead of returning a fallback session with the requested id and an
empty role set as the spec states. -/
theorem bootstrap_mismatch_throws :
    AuthManager.bootstrap 1
        (Except.ok { user := { id := 2, createMs := some 1700000000000 }, roles := [] }) =
      Except.error "User ID mismatch" := by
  rfl

/-- C3 counterexample: with retries exhausted, a non-null context and an
elapsed time of 0 ms, the outer catch of `load()` propagates the error
instead of returning the existing context, so "returns the existing
context whenever the context field is non-null" fails on the code. -/
theorem loadCatch_keeps_error_despite_context :
    loadCatchHandler MAX_LOAD_RETRIES
        (some { localPlayerId := 1, playerMeshCached := true, allShardsMeshed := true,
                recordSize := 4, renderedFrames := 30, resourcesThrow := false })
        0 "bootstrap failed" =
      TickFailureAction.fail "bootstrap failed" := by
  rfl

/-- C3 (amended): with retries exhausted, the in-loop broken handler,
the in-loop catch handler and the interrupt handler resolve with the
existing context whenever it is non-null and propagate the error only
when no context exists; the outer catch of `load()`, however, returns
the existing context only when additionally the elapsed time since
bootstrap start exceeds `BOOTSTRAP_TIMEOUT_MS` (60 s), and otherwise
propagates the error even when a context exists. -/
theorem exhausted_retry_failure_policy (c : ClientContextState) (e : String)
    (elapsedMs : Nat) :
    brokenTickPolicy MAX_LOAD_RETRIES (some c) = TickFailureAction.resolveWith c ∧
    brokenTickPolicy MAX_LOAD_RETRIES none =
      TickFailureAction.fail "Connection broken after maximum retries" ∧
    caughtErrorTickPolicy MAX_LOAD_RETRIES (some c) e = TickFailureAction.resolveWith c ∧
    caughtErrorTickPolicy MAX_LOAD_RETRIES none e = TickFailureAction.fail e ∧
    interruptExhausted (some c) e = Except.ok c ∧
    interruptExhausted none e = Except.error e ∧
    loadCatchHandler MAX_LOAD_RETRIES (some c) elapsedMs e =
      (if BOOTSTRAP_TIMEOUT_MS < elapsedMs then TickFailureAction.resolveWith c
       else TickFailureAction.fail e) ∧
    loadCatchHandler MAX_LOAD_RETRIES none elapsedMs e = TickFailureAction.fail e := by
  refine ⟨?_, ?_, ?_, ?_, ?_, ?_, ?_, ?_⟩ <;>
    simp [brokenTickPolicy, caughtErrorTickPolicy, interruptExhausted,
      loadCatchHandler, MAX_LOAD_RETRIES, BOOTSTRAP_TIMEOUT_MS, gt_iff_lt]

/-- C5 counterexample: when extracting the context data throws (with the
early context loaded, channel ready and bootstrapped), the snapshot
produced by `extractLoadProgress` classifies as `game_entities`, whose
progress rank is strictly greater than `broken`'s — the exception is
converted into a snapshot classifying as a more-advanced stage rather
than being handled as a broken/retryable tick. -/
theorem extraction_error_not_broken :
    progressSummary
        (extractLoadProgress
          (some { loaded := true,
                  context := some { channelStats := { status := ConnectionStatus.ready },
                                    bootstrapped := true } })
          (some { localPlayerId := 1, playerMeshCached := false, allShardsMeshed := false,
                  recordSize := 0, renderedFrames := 0, resourcesThrow := true })) =
      LoadProgressSummary.game_entities ∧
    LoadProgressSummary.game_entities ≠ LoadProgressSummary.broken ∧
    progressForSummary LoadProgressSummary.broken <
      progressForSummary LoadProgressSummary.game_entities := by
  decide

/-- C5 (amended): an exception raised while extracting the context data
is caught inside `extractLoadProgress` and converted into forced-progress
values (entitiesLoaded 0, playerMeshLoaded and terrainMeshLoaded true,
sceneRendered 30); only an exception that escapes the snapshot
computation and reaches the polling loop's catch is handled with exactly
the broken-tick retry policy (increment and delay while retries remain;
on exhaustion resolve with the existing context if present, otherwise
fail). -/
theorem extraction_error_and_loop_policy (c : ClientContextState) (retries : Nat)
    (octx : Option ClientContextState) :
    extractContextData { c with resourcesThrow := true } =
      { entitiesLoaded := 0, playerMeshLoaded := true, terrainMeshLoaded := true,
        sceneRendered := REQUIRED_FRAMES } ∧
    caughtErrorTickPolicy retries octx "Connection broken after maximum retries" =
      brokenTickPolicy retries octx := by
  constructor
  · simp [extractContextData]
  · rcases octx with _ | c' <;>
      simp [caughtErrorTickPolicy, brokenTickPolicy]

/-- Feeding the same serialized value into the stall tracker `k` times
increments the counter `k` times and leaves `lastProgress` unchanged. -/
theorem stallRun_const (v : String) (t : StallTracker) (h : t.lastProgress = v) (k : Nat) :
    stallRun v t k =
      { progressStuckCounter := t.progressStuckCounter + k, lastProgress := v } := by
  induction k with
  | zero =>
    obtain ⟨cnt, last⟩ := t
    simp only at h
    subst h
    rfl
  | succ n ih =>
    simp [stallRun, ih, stallTick]
    omega

/-- C6: for every stage value (no stage exempted) and every non-null
context, a tick whose serialized classification equals the previous
tick's force-resolves with that context exactly when the stall counter,
after `k` prior consecutive identical ticks, exceeds 30 — i.e. on the
31st consecutive unchanged tick (`k = 30`) — and never force-resolves
when the context field is null. -/
theorem stall_force_resolve_all_stages (s : LoadProgressSummary)
    (c : ClientContextState) (k : Nat) :
    (stallRun (summaryJson s) { progressStuckCounter := 0, lastProgress := summaryJson s }
        k).progressStuckCounter = k ∧
    stallTickResolves
        (stallRun (summaryJson s) { progressStuckCounter := 0, lastProgress := summaryJson s } k)
        (summaryJson s) (some c) = (if 30 ≤ k then some c else none) ∧
    stallTickResolves
        (stallRun (summaryJson s) { progressStuckCounter := 0, lastProgress := summaryJson s } k)
        (summaryJson s) none = none := by
  have hrun := stallRun_const (summaryJson s)
    { progressStuckCounter := 0, lastProgress := summaryJson s } rfl k
  rw [hrun]
  refine ⟨by simp, ?_, ?_⟩
  · by_cases hk : 30 ≤ k
    · have htrip : (stallTick
          { progressStuckCounter := k, lastProgress := summaryJson s }
          (summaryJson s)).2 = true := by
        simp [stallTick]
        omega
      simp [stallTickResolves, htrip, hk]
    · have htrip : (stallTick
          { progressStuckCounter := k, lastProgress := summaryJson s }
          (summaryJson s)).2 = false := by
        simp [stallTick]
        omega
      simp [stallTickResolves, htrip, hk]
  · cases htrip : (stallTick
        { progressStuckCounter := k, lastProgress := summaryJson s }
        (summaryJson s)).2 <;>
      simp [stallTickResolves, htrip]

/-- C7 counterexample: starting from a loader with both the interrupt
callback and the cleanup callback set, two consecutive calls to `stop()`
invoke the cleanup callback twice, not exactly once. -/
theorem stop_twice_cleanup_twice :
    (stopOnce (stopOnce { interruptLoadSet := true, contextCleanupSet := true,
                          interruptCalls := 0, cleanupCalls := 0 })).cleanupCalls = 2 ∧
    (stopOnce (stopOnce { interruptLoadSet := true, contextCleanupSet := true,
                          interruptCalls := 0, cleanupCalls := 0 })).cleanupCalls ≠ 1 := by
  decide

/-- C7 (amended): a second `stop()` raises no error and the pending
interrupt callback is invoked at most once across both calls (the field
is cleared by the first call); the bootstrap cleanup callback, however,
is never cleared and is invoked by every call: when set it runs twice
across the two calls. -/
theorem stop_second_call_effects (s : LoaderStopState) :
    (stopOnce s).interruptLoadSet = false ∧
    (stopOnce (stopOnce s)).interruptCalls =
      s.interruptCalls + (if s.interruptLoadSet then 1 else 0) ∧
    (stopOnce (stopOnce s)).cleanupCalls =
      s.cleanupCalls + (if s.contextCleanupSet then 2 else 0) ∧
    (stopOnce (stopOnce s)).contextCleanupSet = s.contextCleanupSet := by
  obtain ⟨il, cc, ic, clc⟩ := s
  cases il <;> cases cc <;> simp [stopOnce]

/-- C9: a fetch attempt that resolves with a response is returned as-is
by `wrappedFetch`'s retry loop (retries happen only on a rejected
fetch), and when the first attempt resolves with a 502 response,
`jsonFetch` throws the distinguished service-unavailable error after the
response is returned, with no retry attempt for that response. -/
theorem jsonFetch_502_immediate_no_retry (input : String)
    (fetchAt : Nat → FetchOutcome) (retries : Nat) (parse : String → String)
    (r r2 : FetchResponse) (attempt : Nat)
    (h0 : fetchAt 0 = FetchOutcome.resolved r) (h502 : r.status = 502)
    (hA : fetchAt attempt = FetchOutcome.resolved r2) :
    wrappedFetch fetchAt retries = Except.ok r ∧
    jsonFetch input fetchAt retries parse =
      Except.error (input ++ ": 502: Unavailable") ∧
    attemptFetch fetchAt retries attempt = Except.ok r2 := by
  have resolvedNow : ∀ (a : Nat) (rr : FetchResponse),
      fetchAt a = FetchOutcome.resolved rr →
      attemptFetch fetchAt retries a = Except.ok rr := by
    intro a rr ha
    rw [attemptFetch, ha]
  have hwrapped : wrappedFetch fetchAt retries = Except.ok r := resolvedNow 0 r h0
  refine ⟨hwrapped, ?_, resolvedNow attempt r2 hA⟩
  have hnotOk : r.ok = false := by
    simp [FetchResponse.ok, h502]
  rw [jsonFetch, hwrapped]
  simp [maybeHandleErrorResponse, hnotOk, h502]

/-- Witness for C9 at a concrete 502 response. -/
theorem jsonFetch_502_immediate_no_retry_witness :
    wrappedFetch (fun _ => FetchOutcome.resolved
        { status := 502, statusText := "Bad Gateway", jsonBody := none }) 3 =
      Except.ok { status := 502, statusText := "Bad Gateway", jsonBody := none } ∧
    jsonFetch "/api/auth/check" (fun _ => FetchOutcome.resolved
        { status := 502, statusText := "Bad Gateway", jsonBody := none }) 3 id =
      Except.error ("/api/auth/check" ++ ": 502: Unavailable") ∧
    attemptFetch (fun _ => FetchOutcome.resolved
        { status := 502, statusText := "Bad Gateway", jsonBody := none }) 3 0 =
      Except.ok { status := 502, statusText := "Bad Gateway", jsonBody := none } :=
  jsonFetch_502_immediate_no_retry "/api/auth/check" _ 3 id
    { status := 502, statusText := "Bad Gateway", jsonBody := none }
    { status := 502, statusText := "Bad Gateway", jsonBody := none }
    0 rfl rfl rfl

end Biomes
